import Mathlib

/-!
Verification of the KIV-UPS chess server core (directory `src/server/src`).

The development shallowly embeds the C sources:

* `game.c`   — rules engine (`is_legal_move_basic`, `apply_move`,
  `move_leaves_in_check`, `has_any_legal_move`, `is_in_check`, ...);
* `match.c`  — match lifecycle, clocks and the per-match watchdog
  (`match_join_by_id`, `match_try_resume`, `match_get_remaining_time`,
  `match_watchdog`); and
* `client.c` — the per-session worker's in-game command dispatch
  (`client_worker`, in particular its `MV` handler).

C `int`/`time_t` values are modelled as `Int`; the 8×8 board is modelled as a
total function `Int → Int → Int` using the C piece encoding (positive white,
negative black, 0 empty); all board accesses performed by the embedded code are
within bounds, mirroring the guards in the source.  The boolean castling-right
flags of `struct Match` (only ever 0/1 in the source) are modelled as `Bool`.
Network sends are modelled as lists of message payloads (the `/NNN` sequence
suffix appended by `send_fmt_with_seq` carries no information relevant to the
properties below and is not modelled).
-/

namespace KivUps

/-- Piece encoding as in `game.h`: EMPTY = 0, WPAWN = 1, WKNIGHT = 2,
WBISHOP = 3, WROOK = 4, WQUEEN = 5, WKING = 6, and the negated values for
black. -/
abbrev Piece := Int

/-- The 8×8 board of `GameState`, as a total function; the embedded code only
reads indices within 0..7 (mirroring the `in_bounds` guards of the source). -/
abbrev Board := Int → Int → Piece

/-- Functional update of a single board square (a C assignment
`g->board[r][c] = v`). -/
def updB (g : Board) (r c : Int) (v : Piece) : Board :=
  fun r' c' => if r' = r ∧ c' = c then v else g r' c'

/-- Build a board from a row-major list of rows (used for concrete positions;
out-of-range squares read as empty). -/
def mkBoard (rows : List (List Int)) : Board :=
  fun r c =>
    if 0 ≤ r ∧ r < 8 ∧ 0 ≤ c ∧ c < 8 then
      (rows.getD r.toNat []).getD c.toNat 0
    else 0

/-- `init_board` of `game.c`: the standard chess starting position
(row 0 is Black's back rank, row 7 is White's). -/
def init_board : Board :=
  mkBoard [[-4, -2, -3, -5, -6, -3, -2, -4],
           [-1, -1, -1, -1, -1, -1, -1, -1],
           [0, 0, 0, 0, 0, 0, 0, 0],
           [0, 0, 0, 0, 0, 0, 0, 0],
           [0, 0, 0, 0, 0, 0, 0, 0],
           [0, 0, 0, 0, 0, 0, 0, 0],
           [1, 1, 1, 1, 1, 1, 1, 1],
           [4, 2, 3, 5, 6, 3, 2, 4]]

/-- `piece_color` of `game.c`: 0 for white (positive), 1 for black (negative),
-1 for empty. -/
def piece_color (p : Piece) : Int :=
  if p > 0 then 0 else if p < 0 then 1 else -1

/-- `in_bounds` of `game.c`. -/
def in_bounds (r c : Int) : Bool :=
  decide (0 ≤ r ∧ r < 8 ∧ 0 ≤ c ∧ c < 8)

/-- The body of the `while` loop of `path_clear`; the fuel argument is an
upper bound on the number of iterations (the C loop steps one square per
iteration and either reaches `(r2, c2)`, leaves the board, or hits a piece,
so 16 iterations always suffice for the in-bounds calls the source makes). -/
def path_clear_go (g : Board) (r2 c2 dr dc : Int) : Nat → Int → Int → Bool
  | 0, _, _ => false
  | fuel + 1, r, c =>
    if r = r2 ∧ c = c2 then true
    else if ¬ (in_bounds r c = true) then false
    else if ¬ (g r c = 0) then false
    else path_clear_go g r2 c2 dr dc fuel (r + dr) (c + dc)

/-- `path_clear` of `game.c`: every square strictly between `(r1, c1)` and
`(r2, c2)` along the stepped direction is empty. -/
def path_clear (g : Board) (r1 c1 r2 c2 : Int) : Bool :=
  let dr : Int := if r2 > r1 then 1 else if r2 < r1 then -1 else 0
  let dc : Int := if c2 > c1 then 1 else if c2 < c1 then -1 else 0
  path_clear_go g r2 c2 dr dc 16 (r1 + dr) (c1 + dc)

/-- One iteration of the scan of `is_square_attacked`: does the piece on
`(r0, c0)` (if of color `by_color`) attack `(r, c)`?  Mirrors the `switch` on
the piece value in `game.c`. -/
def attacks_from (g : Board) (r c r0 c0 by_color : Int) : Bool :=
  let p := g r0 c0
  if ¬ (piece_color p = by_color) then false
  else
    let dr := r - r0
    let dc := c - c0
    let absdr := if dr < 0 then -dr else dr
    let absdc := if dc < 0 then -dc else dc
    if p = 1 then decide (r = r0 - 1 ∧ (c = c0 - 1 ∨ c = c0 + 1))
    else if p = -1 then decide (r = r0 + 1 ∧ (c = c0 - 1 ∨ c = c0 + 1))
    else if p = 2 ∨ p = -2 then
      decide ((absdr = 2 ∧ absdc = 1) ∨ (absdr = 1 ∧ absdc = 2))
    else if p = 3 ∨ p = -3 then
      decide (absdr = absdc) && path_clear g r0 c0 r c
    else if p = 4 ∨ p = -4 then
      decide (dr = 0 ∨ dc = 0) && path_clear g r0 c0 r c
    else if p = 5 ∨ p = -5 then
      decide (absdr = absdc ∨ dr = 0 ∨ dc = 0) && path_clear g r0 c0 r c
    else if p = 6 ∨ p = -6 then decide (absdr ≤ 1 ∧ absdc ≤ 1)
    else false

/-- The 64 squares of the board in the row-major order scanned by the loops of
`game.c`. -/
def allSquares : List (Int × Int) :=
  (List.range 8).flatMap fun r => (List.range 8).map fun c => ((r : Int), (c : Int))

/-- `is_square_attacked` of `game.c`: square `(r, c)` is attacked by some
piece of `by_color`. -/
def is_square_attacked (g : Board) (r c by_color : Int) : Bool :=
  allSquares.any fun rc => attacks_from g r c rc.1 rc.2 by_color

/-- `find_king` of `game.c`: position of the first king of `color` in
row-major scan order, if any. -/
def find_king (g : Board) (color : Int) : Option (Int × Int) :=
  let k : Piece := if color = 0 then 6 else -6
  allSquares.find? fun rc => g rc.1 rc.2 = k

/-- `is_in_check` of `game.c`: the king of `color` (if present) is attacked by
the opposite color. -/
def is_in_check (g : Board) (color : Int) : Bool :=
  match find_king g color with
  | none => false
  | some (kr, kc) => is_square_attacked g kr kc (1 - color)

/-- The fields of `struct Client` (`client.h`) read or written by the embedded
code: the socket handle, the assigned color, the protocol-violation counter
`error_count`, and the two watchdog timestamps. -/
structure ClientS where
  sock : Int
  color : Int
  error_count : Int
  disconnect_time : Int
  last_heartbeat : Int
deriving DecidableEq

/-- The fields of `struct Match` (`match.h`) used by the embedded code.  The
two seats are `Option ClientS` (`NULL` pointers become `none`); the
castling-right ints (always 0/1 in the source) are `Bool`. -/
structure MatchS where
  white : Option ClientS
  black : Option ClientS
  turn : Int
  moves : List String
  state : Board
  finished : Bool
  w_can_kingside : Bool
  w_can_queenside : Bool
  b_can_kingside : Bool
  b_can_queenside : Bool
  ep_r : Int
  ep_c : Int
  draw_offered_by : Int
  last_move_time : Int
  turn_timeout_seconds : Int
  refs : Int
  elapsed_at_pause : Int
  is_paused : Bool

/-- `is_legal_move_basic` of `game.c`: geometric legality of a move for
`color` from `(r1, c1)` to `(r2, c2)`, including pawn pushes/captures,
en-passant onto the recorded target, and castling with its attack/path/right
preconditions.  King safety after the move is not checked here. -/
def is_legal_move_basic (m : MatchS) (color r1 c1 r2 c2 : Int) : Bool :=
  let g := m.state
  if ¬ (in_bounds r1 c1 = true) ∨ ¬ (in_bounds r2 c2 = true) then false
  else
    let p := g r1 c1
    if ¬ (piece_color p = color) then false
    else
      let t := g r2 c2
      if piece_color t = color then false
      else
        let dr := r2 - r1
        let dc := c2 - c1
        let absdr := if dr < 0 then -dr else dr
        let absdc := if dc < 0 then -dc else dc
        if p = 1 then
          if c1 = c2 ∧ g r2 c2 = 0 ∧ dr = -1 then true
          else if c1 = c2 ∧ g r2 c2 = 0 ∧ r1 = 6 ∧ dr = -2 ∧ g 5 c1 = 0 then true
          else if absdc = 1 ∧ dr = -1 ∧ t < 0 then true
          else if absdc = 1 ∧ dr = -1 ∧ t = 0 ∧ m.ep_r = r2 ∧ m.ep_c = c2 then true
          else false
        else if p = -1 then
          if c1 = c2 ∧ g r2 c2 = 0 ∧ dr = 1 then true
          else if c1 = c2 ∧ g r2 c2 = 0 ∧ r1 = 1 ∧ dr = 2 ∧ g 2 c1 = 0 then true
          else if absdc = 1 ∧ dr = 1 ∧ t > 0 then true
          else if absdc = 1 ∧ dr = 1 ∧ t = 0 ∧ m.ep_r = r2 ∧ m.ep_c = c2 then true
          else false
        else if p = 2 ∨ p = -2 then
          decide ((absdr = 2 ∧ absdc = 1) ∨ (absdr = 1 ∧ absdc = 2))
        else if p = 3 ∨ p = -3 then
          if ¬ (absdr = absdc) then false else path_clear g r1 c1 r2 c2
        else if p = 4 ∨ p = -4 then
          if ¬ (dr = 0) ∧ ¬ (dc = 0) then false else path_clear g r1 c1 r2 c2
        else if p = 5 ∨ p = -5 then
          if absdr = absdc ∨ dr = 0 ∨ dc = 0 then path_clear g r1 c1 r2 c2
          else false
        else if p = 6 ∨ p = -6 then
          if absdr ≤ 1 ∧ absdc ≤ 1 then true
          else if r1 = r2 ∧ absdc = 2 then
            let opp := 1 - color
            if is_square_attacked g r1 c1 opp = true then false
            else if c2 = 6 ∧ (is_square_attacked g r1 5 opp = true ∨
                              is_square_attacked g r1 6 opp = true) then false
            else if c2 = 2 ∧ (is_square_attacked g r1 3 opp = true ∨
                              is_square_attacked g r1 2 opp = true) then false
            else if color = 0 then
              if ¬ (r1 = 7 ∧ g 7 4 = 6) then false
              else if c2 = 6 ∧ m.w_can_kingside = true then
                if ¬ (g 7 7 = 4) then false
                else if ¬ (g 7 5 = 0) ∨ ¬ (g 7 6 = 0) then false
                else true
              else if c2 = 2 ∧ m.w_can_queenside = true then
                if ¬ (g 7 0 = 4) then false
                else if ¬ (g 7 1 = 0) ∨ ¬ (g 7 2 = 0) ∨ ¬ (g 7 3 = 0) then false
                else true
              else false
            else
              if ¬ (r1 = 0 ∧ g 0 4 = -6) then false
              else if c2 = 6 ∧ m.b_can_kingside = true then
                if ¬ (g 0 7 = -4) then false
                else if ¬ (g 0 5 = 0) ∨ ¬ (g 0 6 = 0) then false
                else true
              else if c2 = 2 ∧ m.b_can_queenside = true then
                if ¬ (g 0 0 = -4) then false
                else if ¬ (g 0 1 = 0) ∨ ¬ (g 0 2 = 0) ∨ ¬ (g 0 3 = 0) then false
                else true
              else false
          else false
        else false

/-- Promotion piece for a white pawn, from the `switch (promo_char)` of
`apply_move` (default and the NUL "no choice" character both give a queen). -/
def promo_piece_white (promo_char : Char) : Piece :=
  if ¬ (promo_char = Char.ofNat 0) then
    if promo_char = 'q' ∨ promo_char = 'Q' then 5
    else if promo_char = 'r' ∨ promo_char = 'R' then 4
    else if promo_char = 'b' ∨ promo_char = 'B' then 3
    else if promo_char = 'n' ∨ promo_char = 'N' then 2
    else 5
  else 5

/-- Promotion piece for a black pawn, from the `switch (promo_char)` of
`apply_move`. -/
def promo_piece_black (promo_char : Char) : Piece :=
  if ¬ (promo_char = Char.ofNat 0) then
    if promo_char = 'q' ∨ promo_char = 'Q' then -5
    else if promo_char = 'r' ∨ promo_char = 'R' then -4
    else if promo_char = 'b' ∨ promo_char = 'B' then -3
    else if promo_char = 'n' ∨ promo_char = 'N' then -2
    else -5
  else -5

/-- The "check for rook capture" block of `apply_move` (`game.c` lines
246–253): capturing a rook on its original square revokes the corresponding
right.  `g` is the board before the move is played. -/
def revoke_on_rook_capture (g : Board) (r2 c2 : Int) (m : MatchS) : MatchS :=
  let m1 := if g r2 c2 = 4 then
              { m with
                w_can_kingside := if r2 = 7 ∧ c2 = 7 then false else m.w_can_kingside,
                w_can_queenside := if r2 = 7 ∧ c2 = 0 then false else m.w_can_queenside }
            else m
  if g r2 c2 = -4 then
    { m1 with
      b_can_kingside := if r2 = 0 ∧ c2 = 7 then false else m1.b_can_kingside,
      b_can_queenside := if r2 = 0 ∧ c2 = 0 then false else m1.b_can_queenside }
  else m1

/-- The castling-right revocation for the moved piece (`game.c` lines
258–269): any king move, or a rook move from its original square. -/
def revoke_on_piece_move (p : Piece) (r1 c1 : Int) (m : MatchS) : MatchS :=
  let m1 := if p = 6 then { m with w_can_kingside := false, w_can_queenside := false } else m
  let m2 := if p = -6 then { m1 with b_can_kingside := false, b_can_queenside := false } else m1
  let m3 := if p = 4 then
              { m2 with
                w_can_kingside := if r1 = 7 ∧ c1 = 7 then false else m2.w_can_kingside,
                w_can_queenside := if r1 = 7 ∧ c1 = 0 then false else m2.w_can_queenside }
            else m2
  if p = -4 then
    { m3 with
      b_can_kingside := if r1 = 0 ∧ c1 = 7 then false else m3.b_can_kingside,
      b_can_queenside := if r1 = 0 ∧ c1 = 0 then false else m3.b_can_queenside }
  else m3

/-- The en-passant target update after a double pawn step (`game.c` lines
271–276). -/
def set_ep_target (p : Piece) (r1 c1 r2 c2 : Int) (m : MatchS) : MatchS :=
  if p = 1 ∧ r1 = 6 ∧ r2 = 4 ∧ c1 = c2 then { m with ep_r := 5, ep_c := c1 }
  else if p = -1 ∧ r1 = 1 ∧ r2 = 3 ∧ c1 = c2 then { m with ep_r := 2, ep_c := c1 }
  else m

/-- `apply_move` of `game.c`: applies the move to the match state, handling
en-passant capture, castling rook relocation, castling-right revocation (king
move, rook move from its original square, capture of a rook on its original
square), the en-passant target, and promotion. -/
def apply_move (m : MatchS) (r1 c1 r2 c2 : Int) (promo_char : Char) : MatchS :=
  let g0 := m.state
  let p := g0 r1 c1
  let m1 := { m with ep_r := -1, ep_c := -1 }
  let g1 := if (p = 1 ∨ p = -1) ∧ g0 r2 c2 = 0 ∧ ¬ (c1 = c2) then
              updB g0 (if p = 1 then r2 + 1 else r2 - 1) c2 0
            else g0
  if (p = 6 ∨ p = -6) ∧ r1 = r2 ∧ (c2 - c1 = 2 ∨ c2 - c1 = -2) then
    let g2 := updB (updB g1 r2 c2 p) r1 c1 0
    let g3 := if c2 - c1 = 2 then updB (updB g2 r2 5 (g2 r2 7)) r2 7 0
              else updB (updB g2 r2 3 (g2 r2 0)) r2 0 0
    if p = 6 then
      { m1 with state := g3, w_can_kingside := false, w_can_queenside := false }
    else
      { m1 with state := g3, b_can_kingside := false, b_can_queenside := false }
  else
    let m2 := revoke_on_rook_capture g1 r2 c2 m1
    let g2 := updB (updB g1 r2 c2 p) r1 c1 0
    let m3 := revoke_on_piece_move p r1 c1 m2
    let m4 := set_ep_target p r1 c1 r2 c2 m3
    let g3 := if p = 1 ∧ r2 = 0 then updB g2 r2 c2 (promo_piece_white promo_char) else g2
    let g4 := if p = -1 ∧ r2 = 7 then updB g3 r2 c2 (promo_piece_black promo_char) else g3
    { m4 with state := g4 }

/-- `move_leaves_in_check` of `game.c`: simulates the move on a local copy of
the board (including en-passant pawn removal and castling rook relocation) and
reports whether `color`'s king is then in check.  The returned `MatchS` is the
match as left behind by the call; the C function writes only to its local
`GameState copy`, never through `m`. -/
def move_leaves_in_check (m : MatchS) (color r1 c1 r2 c2 : Int) : Bool × MatchS :=
  let copy := m.state
  let p := copy r1 c1
  let copy := if (p = 1 ∨ p = -1) ∧ copy r2 c2 = 0 ∧ ¬ (c1 = c2) then
                updB copy (if p = 1 then r2 + 1 else r2 - 1) c2 0
              else copy
  if (p = 6 ∨ p = -6) ∧ r1 = r2 ∧ (c2 - c1 = 2 ∨ c2 - c1 = -2) then
    let copy := updB (updB copy r2 c2 p) r1 c1 0
    let copy := if c2 - c1 = 2 then updB (updB copy r2 5 (copy r2 7)) r2 7 0
                else updB (updB copy r2 3 (copy r2 0)) r2 0 0
    (is_in_check copy color, m)
  else
    let copy := updB (updB copy r2 c2 (copy r1 c1)) r1 c1 0
    (is_in_check copy color, m)

/-- `has_any_legal_move` of `game.c`: brute-force scan for a move of `color`
that is basically legal and does not leave `color`'s own king in check. -/
def has_any_legal_move (m : MatchS) (color : Int) : Bool :=
  allSquares.any fun src =>
    decide (piece_color (m.state src.1 src.2) = color) &&
    allSquares.any fun dst =>
      is_legal_move_basic m color src.1 src.2 dst.1 dst.2 &&
      ! (move_leaves_in_check m color src.1 src.2 dst.1 dst.2).1

/-- `is_move_format` of `game.c`: 4 or 5 characters, files `a`-`h`, ranks
`1`-`8`, optional promotion character among `qrbn`/`QRBN`. -/
def is_move_format (s : String) : Bool :=
  let fileOk : Char → Bool := fun ch => decide ('a' ≤ ch ∧ ch ≤ 'h')
  let rankOk : Char → Bool := fun ch => decide ('1' ≤ ch ∧ ch ≤ '8')
  let promoOk : Char → Bool := fun ch =>
    decide (ch = 'q' ∨ ch = 'r' ∨ ch = 'b' ∨ ch = 'n' ∨
            ch = 'Q' ∨ ch = 'R' ∨ ch = 'B' ∨ ch = 'N')
  match s.data with
  | [a, b, c, d] => fileOk a && rankOk b && fileOk c && rankOk d
  | [a, b, c, d, e] => fileOk a && rankOk b && fileOk c && rankOk d && promoOk e
  | _ => false

/-- `parse_move` of `game.c`: `"e2e4"`-style text to coordinates
(`c = file − 'a'`, `r = 8 − (rank − '0')`). -/
def parse_move (mv : String) : Int × Int × Int × Int :=
  let at0 : Nat → Int := fun i => ((mv.data.getD i (Char.ofNat 0)).toNat : Int)
  (8 - (at0 1 - 48), at0 0 - 97, 8 - (at0 3 - 48), at0 2 - 97)

/-! ## `match.c`: clocks, joining, and the watchdog -/

/-- `MAX_ERRORS` of `config.h`: disconnect a client after this many protocol
violations. -/
def MAX_ERRORS : Nat := 3

/-- `DISCONNECT_GRACE_PERIOD` of `config.h` (seconds). -/
def DISCONNECT_GRACE_PERIOD : Int := 3

/-- `HEARTBEAT_TIMEOUT_SECONDS` of `config.h` (seconds). -/
def HEARTBEAT_TIMEOUT_SECONDS : Int := 15

/-- `DISCONNECT_TIMEOUT_SECONDS` of `config.h` (seconds). -/
def DISCONNECT_TIMEOUT_SECONDS : Int := 60

/-- `match_get_remaining_time` of `match.c` with the current wall clock passed
explicitly: 0 for a finished match, the clamped residue of
`elapsed_at_pause` when paused, the full timeout when no clock has started,
and the clamped residue of `now − last_move_time` otherwise. -/
def match_get_remaining_time (m : MatchS) (now : Int) : Int :=
  if m.finished = true then 0
  else if m.is_paused = true then
    let left := m.turn_timeout_seconds - m.elapsed_at_pause
    if left < 0 then 0 else left
  else if m.last_move_time = 0 then m.turn_timeout_seconds
  else
    let elapsed := now - m.last_move_time
    let left := m.turn_timeout_seconds - elapsed
    if left < 0 then 0 else left

/-- Remaining time as the specification words it (`spec.md` §4.5):
`max(0, timeout − elapsed)` where `elapsed` is `elapsed_at_pause` if paused,
else `now − last_move_time` if a clock is running, else 0.  Used only to
compare the source function against the claimed formula. -/
def spec_remaining_time (m : MatchS) (now : Int) : Int :=
  let elapsed := if m.is_paused = true then m.elapsed_at_pause
                 else if ¬ (m.last_move_time = 0) then now - m.last_move_time
                 else 0
  max 0 (m.turn_timeout_seconds - elapsed)

/-- Occupancy-and-liveness test for a seat (`m->white && m->white->sock > 0`
in the source). -/
def seat_live (c : Option ClientS) : Bool :=
  match c with
  | some cl => decide (cl.sock > 0)
  | none => false

/-- `match_try_resume` of `match.c`: if paused and both seats have live
sockets, restore `last_move_time = now − elapsed_at_pause`, clear the pause
state and report `true`; otherwise leave the match unchanged and report
`false`. -/
def match_try_resume (m : MatchS) (now : Int) : MatchS × Bool :=
  if m.is_paused = true ∧ seat_live m.white = true ∧ seat_live m.black = true then
    ({ m with last_move_time := now - m.elapsed_at_pause,
              elapsed_at_pause := 0, is_paused := false }, true)
  else (m, false)

/-- `match_join_by_id` of `match.c`, on the match found in the registry: the
registry pass increments `refs`; then, under the match lock, the join fails
(returning −1, after undoing the increment) if a black seat is present or the
match is finished, and otherwise seats the joiner as black and starts the
clock. -/
def match_join_by_id_found (m : MatchS) (joiner : ClientS) (now : Int) :
    MatchS × Int :=
  let m1 := { m with refs := m.refs + 1 }
  if ¬ (m1.black = none) ∨ m1.finished = true then
    ({ m1 with refs := m1.refs - 1 }, -1)
  else
    ({ m1 with black := some joiner, last_move_time := now }, 0)

/-- Result of one iteration of the `while` loop of `match_watchdog`: the match
as left behind, the payloads sent this tick, the value of the local
`timed_out` flag, whether `match_free` was invoked, and how many
`decrement_player_count` calls were made. -/
structure TickRes where
  m : MatchS
  msgs : List String
  timedOut : Bool
  freed : Bool
  playerDecs : Nat

/-- A guarded send (`send_line(c->sock, msg)` preceded by a `sock > 0`
check): the payload is emitted only for a live socket. -/
def send_if_live (c : Option ClientS) (msg : String) : List String :=
  match c with
  | some cl => if cl.sock > 0 then [msg] else []
  | none => []

/-- The local `timed_out` computation of the watchdog (`match.c` line 328):
the turn clock has expired, is running (`last_move_time != 0`) and the match
is not paused. -/
def watchdog_timed_out (m : MatchS) (now : Int) : Bool :=
  ! m.is_paused && decide (¬ (m.last_move_time = 0)) &&
  decide (now - m.last_move_time ≥ m.turn_timeout_seconds)

/-- The grace-to-pause condition for one seat (`match.c` lines 342–343 and
352–353): the seat is occupied, its socket is the −1 sentinel, the match is
not yet paused, and the grace period has elapsed since the disconnect. -/
def grace_cond (seat : Option ClientS) (isPaused : Bool) (now : Int) : Bool :=
  match seat with
  | some c => decide (c.sock = -1) && ! isPaused &&
              decide (now - c.disconnect_time > DISCONNECT_GRACE_PERIOD)
  | none => false

/-- The clock-freezing part of a grace-to-pause transition (`match.c` lines
344–348): record `elapsed_at_pause`, zero `last_move_time` (when a clock was
running) and raise `is_paused`. -/
def grace_pause (m : MatchS) (now : Int) : MatchS :=
  let m' := if m.last_move_time > 0 then
              { m with elapsed_at_pause := now - m.last_move_time,
                       last_move_time := 0 }
            else m
  { m' with is_paused := true }

/-- The zombie check for the white seat (`match.c` lines 364–367): a live
socket silent beyond the heartbeat limit is half-closed and its
`disconnect_time` stamped. -/
def zombie_white (m : MatchS) (now : Int) : MatchS :=
  match m.white with
  | some w => if w.sock > 0 ∧ now - w.last_heartbeat > HEARTBEAT_TIMEOUT_SECONDS
              then { m with white := some { w with disconnect_time := now } }
              else m
  | none => m

/-- The zombie check for the black seat (`match.c` lines 368–371). -/
def zombie_black (m : MatchS) (now : Int) : MatchS :=
  match m.black with
  | some b => if b.sock > 0 ∧ now - b.last_heartbeat > HEARTBEAT_TIMEOUT_SECONDS
              then { m with black := some { b with disconnect_time := now } }
              else m
  | none => m

/-- The final-disconnect condition for one seat (`match.c` lines 374–381). -/
def final_dc_cond (seat : Option ClientS) (now : Int) : Bool :=
  match seat with
  | some c => decide (c.sock = -1) &&
              decide (now - c.disconnect_time > DISCONNECT_TIMEOUT_SECONDS)
  | none => false

/-- The white-seat grace-to-pause block of the watchdog (`match.c` lines
342–351): when the condition holds, freeze the clock and notify the black
seat with `WAIT_CONN`. -/
def watchdog_grace_white (m : MatchS) (now : Int) : MatchS × List String :=
  if grace_cond m.white m.is_paused now = true then
    (grace_pause m now, send_if_live m.black "WAIT_CONN")
  else (m, [])

/-- The black-seat grace-to-pause block of the watchdog (`match.c` lines
352–361), operating on the state left by the white-seat block. -/
def watchdog_grace_black (m : MatchS) (now : Int) : MatchS × List String :=
  if grace_cond m.black m.is_paused now = true then
    (grace_pause m now, send_if_live m.white "WAIT_CONN")
  else (m, [])

/-- The grace, zombie and final-disconnect part of a watchdog tick (the code
that runs when the match is neither finished nor timed out, `match.c` lines
341–395). -/
def watchdog_tick_live (m : MatchS) (now : Int) : TickRes :=
  let gw := watchdog_grace_white m now
  let gb := watchdog_grace_black gw.1 now
  let m4 := zombie_black (zombie_white gb.1 now) now
  let wdc := final_dc_cond m4.white now
  let bdc := final_dc_cond m4.black now
  if wdc = true ∨ bdc = true then
    let winner := if wdc = true then m4.black else m4.white
    let decs : Nat := (if wdc = true then 1 else 0) + (if bdc = true then 1 else 0)
    { m := { m4 with finished := true,
                     refs := m4.refs -
                       ((if wdc = true then 1 else 0) + (if bdc = true then 1 else 0)) },
      msgs := gw.2 ++ gb.2 ++ send_if_live winner "OPP_EXT",
      timedOut := false, freed := false, playerDecs := decs }
  else
    { m := m4, msgs := gw.2 ++ gb.2, timedOut := false, freed := false,
      playerDecs := 0 }

/-- One iteration of the `while` loop of `match_watchdog` in `match.c`
(everything done under the match lock of a single tick): the finished-match
release, the turn-timeout rule, the two grace-to-pause transitions, the two
heartbeat zombie checks, and the final-disconnect forfeit. -/
def match_watchdog_tick (m : MatchS) (now : Int) : TickRes :=
  if m.finished = true then
    let m1 := { m with refs := m.refs - 1 }
    { m := m1, msgs := [], timedOut := false, freed := m1.refs ≤ 0, playerDecs := 0 }
  else
    if watchdog_timed_out m now = true then
      let inactive := if m.turn = 0 then m.white else m.black
      let winner := if m.turn = 0 then m.black else m.white
      { m := { m with finished := true },
        msgs := send_if_live inactive "TOUT" ++ send_if_live winner "OPP_TOUT",
        timedOut := true, freed := false, playerDecs := 0 }
    else
      watchdog_tick_live m now

/-! ## Reference-count lifecycle model (`match.c`)

Abstract state of one match as far as its liveness is concerned, together
with the lock-protected regions of `match.c`/`client.c` that touch `refs`,
each embedded as one atomic step. -/

/-- Liveness-relevant state of one match: the reference count, the terminal
flag, seat occupancy, registry membership, and how many times `match_free`
has run. -/
structure RefM where
  refs : Int
  finished : Bool
  whiteSeat : Bool
  blackSeat : Bool
  registered : Bool
  freeCount : Nat
  watchdogRunning : Bool
deriving DecidableEq

/-- `match_free` of `match.c`: unregisters the match and releases its
storage. -/
def match_free_ref (s : RefM) : RefM :=
  { s with registered := false, freeCount := s.freeCount + 1 }

/-- `match_create` of `match.c`: the creator seats itself as white and the
match starts with `refs = 2` (creator thread + watchdog). -/
def match_create_ref : RefM :=
  { refs := 2, finished := false, whiteSeat := true, blackSeat := false,
    registered := true, freeCount := 0, watchdogRunning := true }

/-- The registry-lock pass of `match_join_by_id` (`match.c` lines 78–89): if
the match is still registered it is found and `refs` is incremented. -/
def join_reserve (s : RefM) : RefM :=
  if s.registered = true then { s with refs := s.refs + 1 } else s

/-- The match-lock pass of `match_join_by_id` (`match.c` lines 93–105): a
present black seat or a finished match undoes the increment and fails;
`match_free` is not called even if `refs` has thereby reached 0. -/
def join_locked (s : RefM) : RefM × Int :=
  if s.blackSeat = true ∨ s.finished = true then
    ({ s with refs := s.refs - 1 }, -1)
  else
    ({ s with blackSeat := true }, 0)

/-- A handler marking the match finished under the match lock (e.g. the `RES`
branch of `client_worker`). -/
def set_finished_ref (s : RefM) : RefM :=
  { s with finished := true }

/-- `match_release_after_client` (`match.c` lines 195–206), finished-match
regime: clear the caller's seat, decrement `refs` (guarded against underflow)
and free the match if this was the last holder. -/
def release_finished (s : RefM) (isWhite : Bool) : RefM :=
  let s1 := if isWhite then { s with whiteSeat := false }
            else { s with blackSeat := false }
  let s2 := if s1.refs > 0 then { s1 with refs := s1.refs - 1 } else s1
  if s2.refs ≤ 0 then match_free_ref s2 else s2

/-- `match_leave_by_client` of `match.c`: clear the caller's seat, decrement
`refs` (guarded), free on reaching 0. -/
def leave_by_client (s : RefM) (isWhite : Bool) : RefM :=
  let s1 := if isWhite then { s with whiteSeat := false }
            else { s with blackSeat := false }
  let s2 := if s1.refs > 0 then { s1 with refs := s1.refs - 1 } else s1
  if s2.refs ≤ 0 then match_free_ref s2 else s2

/-- The finished-match branch of the watchdog loop (`match.c` lines 316–322):
drop the watchdog's reference, free the match if it was the last one, and
exit the loop. -/
def watchdog_finished_tick (s : RefM) : RefM :=
  let s1 := { s with refs := s.refs - 1, watchdogRunning := false }
  if s1.refs ≤ 0 then match_free_ref s1 else s1

/-- The interleaving refuting the destruction claim, up to (but not
including) its last step: create; black joins; white resigns and releases;
the watchdog drops its reference and exits; a second prospective joiner
reserves the match in the registry; black releases.  Every step is one
lock-protected region of the source. -/
def c3_trace_prefix : RefM :=
  let s0 := match_create_ref
  let s1 := (join_locked (join_reserve s0)).1
  let s2 := set_finished_ref s1
  let s3 := release_finished s2 true
  let s4 := watchdog_finished_tick s3
  let s5 := join_reserve s4
  release_finished s5 false

/-- The last step of the interleaving: the second join fails under the match
lock and drops `refs` to 0 without ever calling `match_free`. -/
def c3_trace_final : RefM × Int :=
  join_locked c3_trace_prefix

/-! ## `client.c`: the in-game command dispatch of `client_worker` -/

/-- Character-level prefix test used by the dispatch (C
`strncmp(s, pre, n) == 0` with `n = strlen(pre)`). -/
def hasPrefixChars : List Char → List Char → Bool
  | [], _ => true
  | _ :: _, [] => false
  | a :: as, b :: bs => a = b && hasPrefixChars as bs

/-- C `strncmp(s, pre, strlen(pre)) == 0`. -/
def strPrefix (pre s : String) : Bool :=
  hasPrefixChars pre.data s.data

/-- Result of handling one received line: the match and the session as left
behind, and the message payloads written to the offender and to the
opponent (in send order). -/
structure StepRes where
  m : MatchS
  me : ClientS
  toMe : List String
  toOpp : List String

/-- `close_sockets` of `client.c`: half-close and invalidate both seats'
sockets. -/
def close_sockets (m : MatchS) : MatchS :=
  let m1 := match m.white with
    | some w => if w.sock > 0 then { m with white := some { w with sock := -1 } } else m
    | none => m
  match m1.black with
  | some b => if b.sock > 0 then { m1 with black := some { b with sock := -1 } } else m1
  | none => m1

/-- The opponent seat of the mover (`(me == myMatch->white) ? myMatch->black
: myMatch->white`). -/
def opp_of (m : MatchS) (meWhite : Bool) : Option ClientS :=
  if meWhite then m.black else m.white

/-- Socket of the opponent seat, −1 when the seat is empty. -/
def opp_sock (m : MatchS) (meWhite : Bool) : Int :=
  match opp_of m meWhite with
  | some c => c.sock
  | none => -1

/-- A send to the mover through `send_fmt_with_seq` (which returns without
sending when the socket is not live). -/
def send_me (sock : Int) (msg : String) : List String :=
  if sock > 0 then [msg] else []

/-- The `MV` branch of `client_worker` (`client.c` lines 406–492), after the
move format check: turn and legality validation, `apply_move`, history
append, the `OK_MV`/`OPP_MV` sends, the check/checkmate/stalemate outcome
messages, the finished flag for mate and stalemate, and the turn flip plus
turn-clock reset when the game continues. -/
def client_mv_handler (m : MatchS) (meWhite : Bool) (myColor : Int)
    (mv : String) (r1 c1 r2 c2 : Int) (promo : Char) (mySock now : Int) :
    MatchS × List String × List String :=
  if m.finished = true then (m, send_me mySock "ERR Game over", [])
  else if ¬ (m.turn = myColor) then (m, send_me mySock "ERR Not your turn", [])
  else if is_legal_move_basic m myColor r1 c1 r2 c2 = false then
    (m, send_me mySock "ERR Illegal move", [])
  else if (move_leaves_in_check m myColor r1 c1 r2 c2).1 = true then
    (m, send_me mySock "ERR Move leaves king in check", [])
  else
    let m1 := apply_move m r1 c1 r2 c2 promo
    let m1 := { m1 with moves := m1.moves ++ [mv] }
    let oppc := 1 - myColor
    let osock := opp_sock m1 meWhite
    let opp_in_check := is_in_check m1.state oppc
    let opp_has_move := has_any_legal_move m1 oppc
    let m2 := if (opp_in_check = true ∧ opp_has_move = false) ∨
                 (opp_in_check = false ∧ opp_has_move = false) then
                { m1 with finished := true, last_move_time := 0 }
              else m1
    let toMe1 := send_me mySock "OK_MV"
    let toOpp1 := send_me osock ("OPP_MV " ++ mv)
    let toOpp2 := toOpp1 ++ (if opp_in_check = true ∧ opp_has_move = true then
                               send_me osock "CHK" else [])
    let toOpp3 := toOpp2 ++ (if opp_in_check = true ∧ opp_has_move = false then
                               send_me osock "CHKM" else [])
    let toMe2 := toMe1 ++ (if opp_in_check = true ∧ opp_has_move = false then
                             send_me mySock "WIN_CHKM" else [])
    let toOpp4 := toOpp3 ++ (if opp_in_check = false ∧ opp_has_move = false then
                               send_me osock "SM" else [])
    let toMe3 := toMe2 ++ (if opp_in_check = false ∧ opp_has_move = false then
                             send_me mySock "SM" else [])
    if m2.finished = false then
      ({ m2 with turn := 1 - m2.turn, last_move_time := now }, toMe3, toOpp4)
    else
      (close_sockets m2, toMe3, toOpp4)

/-- The in-game command dispatch of `client_worker` (`client.c` lines
399–607) for one received line (with no trailing `/NNN` sequence suffix, so
no short ack is produced): the `strncmp` prefix chain over `MV`, `RES`,
`DRW_OFF`, `DRW_ACC`, `DRW_DEC`, `EXT`, with everything else answered by
`ERR Unknown command`.  The session's `error_count` field (declared in
`client.h`) is threaded through unchanged: no branch of the source touches
it. -/
def process_command (m : MatchS) (me : ClientS) (meWhite : Bool)
    (line : String) (now : Int) : StepRes :=
  let osock := opp_sock m meWhite
  if strPrefix "MV" line = true then
    let mv := ⟨line.data.drop 2⟩
    if is_move_format mv = false then
      { m := m, me := me,
        toMe := send_me me.sock "ERR Bad MV format" ++
                send_me me.sock ("ERR " ++ line),
        toOpp := [] }
    else
      let pm := parse_move mv
      let promo := if mv.data.length = 5 then mv.data.getD 4 (Char.ofNat 0)
                   else Char.ofNat 0
      let res := client_mv_handler m meWhite me.color mv pm.1 pm.2.1 pm.2.2.1
                   pm.2.2.2 promo me.sock now
      { m := res.1, me := me, toMe := res.2.1, toOpp := res.2.2 }
  else if strPrefix "RES" line = true then
    let m1 := { m with finished := true, last_move_time := 0 }
    { m := close_sockets m1, me := me,
      toMe := send_me me.sock "RES",
      toOpp := send_me osock "OPP_RES" }
  else if strPrefix "DRW_OFF" line = true then
    if ¬ (m.draw_offered_by = -1) then
      { m := m, me := me, toMe := send_me me.sock "ERR Draw offer already pending",
        toOpp := [] }
    else if osock > 0 then
      { m := { m with draw_offered_by := me.color }, me := me,
        toMe := [], toOpp := send_me osock "DRW_OFF" }
    else
      { m := m, me := me, toMe := send_me me.sock "ERR No opponent", toOpp := [] }
  else if strPrefix "DRW_ACC" line = true then
    if m.draw_offered_by = -1 ∨ m.draw_offered_by = me.color then
      { m := m, me := me, toMe := send_me me.sock "ERR No draw offer to accept",
        toOpp := [] }
    else
      let m1 := { m with draw_offered_by := -1, finished := true,
                         last_move_time := 0 }
      { m := close_sockets m1, me := me,
        toMe := send_me me.sock "DRW_ACD",
        toOpp := send_me osock "DRW_ACD" }
  else if strPrefix "DRW_DEC" line = true then
    if m.draw_offered_by = -1 ∨ m.draw_offered_by = me.color then
      { m := m, me := me, toMe := send_me me.sock "ERR No draw offer to decline",
        toOpp := [] }
    else
      { m := { m with draw_offered_by := -1 }, me := me,
        toMe := [], toOpp := send_me osock "DRW_DCD" }
  else if strPrefix "EXT" line = true then
    { m := { m with finished := true, last_move_time := 0 }, me := me,
      toMe := [], toOpp := send_me osock "OPP_EXT" }
  else
    { m := m, me := me, toMe := send_me me.sock "ERR Unknown command", toOpp := [] }

/-- Iterate `process_command` over a list of received lines, accumulating the
payloads sent to the offender and to the opponent. -/
def run_commands (m : MatchS) (me : ClientS) (meWhite : Bool)
    (lines : List String) (now : Int) :
    MatchS × ClientS × List String × List String :=
  match lines with
  | [] => (m, me, [], [])
  | l :: ls =>
    let r := process_command m me meWhite l now
    let rest := run_commands r.m r.me meWhite ls now
    (rest.1, rest.2.1, r.toMe ++ rest.2.2.1, r.toOpp ++ rest.2.2.2)

/-! ## Spec-side predicates and concrete states used by the theorems -/

/-- The clock-pause invariant of `spec.md` §3: a paused match has a zeroed
`last_move_time`. -/
def pause_inv (m : MatchS) : Prop :=
  m.is_paused = true → m.last_move_time = 0

/-- The back rank of a color (row 7 for white, row 0 for black). -/
def backRank (color : Int) : Int := if color = 0 then 7 else 0

/-- The king piece of a color. -/
def kingOf (color : Int) : Piece := if color = 0 then 6 else -6

/-- The rook piece of a color. -/
def rookOf (color : Int) : Piece := if color = 0 then 4 else -4

/-- The kingside castling right of a color. -/
def kingsideRight (m : MatchS) (color : Int) : Bool :=
  if color = 0 then m.w_can_kingside else m.b_can_kingside

/-- The queenside castling right of a color. -/
def queensideRight (m : MatchS) (color : Int) : Bool :=
  if color = 0 then m.w_can_queenside else m.b_can_queenside

/-- The spec's preconditions for kingside castling (`spec.md` §4.1): king and
rook on their original squares, both intervening squares empty, the right
still set, and none of the king's current, transit and landing squares
attacked by the opponent. -/
def castle_kingside_ok (m : MatchS) (color : Int) : Prop :=
  m.state (backRank color) 4 = kingOf color ∧
  m.state (backRank color) 7 = rookOf color ∧
  m.state (backRank color) 5 = 0 ∧
  m.state (backRank color) 6 = 0 ∧
  kingsideRight m color = true ∧
  is_square_attacked m.state (backRank color) 4 (1 - color) = false ∧
  is_square_attacked m.state (backRank color) 5 (1 - color) = false ∧
  is_square_attacked m.state (backRank color) 6 (1 - color) = false

/-- The spec's preconditions for queenside castling: king and rook on their
original squares, the three intervening squares empty, the right still set,
and none of the king's current, transit and landing squares attacked. -/
def castle_queenside_ok (m : MatchS) (color : Int) : Prop :=
  m.state (backRank color) 4 = kingOf color ∧
  m.state (backRank color) 0 = rookOf color ∧
  m.state (backRank color) 1 = 0 ∧
  m.state (backRank color) 2 = 0 ∧
  m.state (backRank color) 3 = 0 ∧
  queensideRight m color = true ∧
  is_square_attacked m.state (backRank color) 4 (1 - color) = false ∧
  is_square_attacked m.state (backRank color) 3 (1 - color) = false ∧
  is_square_attacked m.state (backRank color) 2 (1 - color) = false

/-- A connected white session. -/
def exW : ClientS := ⟨5, 0, 0, 0, 0⟩

/-- A connected black session. -/
def exB : ClientS := ⟨6, 1, 0, 0, 0⟩

/-- A running two-player match in the starting position, white to move. -/
def ex_match : MatchS :=
  { white := some exW, black := some exB, turn := 0,
    moves := [], state := init_board, finished := false,
    w_can_kingside := true, w_can_queenside := true,
    b_can_kingside := true, b_can_queenside := true,
    ep_r := -1, ep_c := -1, draw_offered_by := -1,
    last_move_time := 100, turn_timeout_seconds := 180, refs := 3,
    elapsed_at_pause := 0, is_paused := false }

/-- The starting position with White's f1 and g1 vacated, so that White's
kingside castling is available. -/
def ex_castle_board : Board :=
  mkBoard [[-4, -2, -3, -5, -6, -3, -2, -4],
           [-1, -1, -1, -1, -1, -1, -1, -1],
           [0, 0, 0, 0, 0, 0, 0, 0],
           [0, 0, 0, 0, 0, 0, 0, 0],
           [0, 0, 0, 0, 0, 0, 0, 0],
           [0, 0, 0, 0, 0, 0, 0, 0],
           [1, 1, 1, 1, 1, 1, 1, 1],
           [4, 2, 3, 5, 6, 0, 0, 4]]

/-- A running match in which White may castle kingside. -/
def ex_castle_match : MatchS := { ex_match with state := ex_castle_board }

/-- A paused match (black seat disconnected past the grace period) with the
clock frozen, white to move. -/
def ex_paused_match : MatchS :=
  { ex_match with black := some ⟨-1, 1, 0, 400, 0⟩,
                  is_paused := true, last_move_time := 0,
                  elapsed_at_pause := 40 }

/-- A paused match in which both seats have live sockets again (the state
found by `match_try_resume` right after a successful reconnection). -/
def ex_paused_both : MatchS :=
  { ex_paused_match with black := some ⟨7, 1, 0, 0, 0⟩ }

/-- A finished match whose clock fields have been cleared. -/
def ex_finished_match : MatchS :=
  { ex_match with finished := true, last_move_time := 0 }

/-- A registered one-player match awaiting an opponent. -/
def ex_open_match : MatchS :=
  { ex_match with black := none, last_move_time := 0, refs := 2 }

/-! ## Helper lemmas -/

/-- The rook-capture revocation block touches only the castling-right
fields. -/
theorem revoke_on_rook_capture_proj (g : Board) (r2 c2 : Int) (m : MatchS) :
    (revoke_on_rook_capture g r2 c2 m).white = m.white ∧
    (revoke_on_rook_capture g r2 c2 m).black = m.black ∧
    (revoke_on_rook_capture g r2 c2 m).finished = m.finished ∧
    (revoke_on_rook_capture g r2 c2 m).is_paused = m.is_paused ∧
    (revoke_on_rook_capture g r2 c2 m).last_move_time = m.last_move_time ∧
    (revoke_on_rook_capture g r2 c2 m).turn = m.turn := by
  unfold revoke_on_rook_capture
  try dsimp only
  split_ifs <;> exact ⟨rfl, rfl, rfl, rfl, rfl, rfl⟩

/-- The moved-piece revocation block touches only the castling-right
fields. -/
theorem revoke_on_piece_move_proj (p : Piece) (r1 c1 : Int) (m : MatchS) :
    (revoke_on_piece_move p r1 c1 m).white = m.white ∧
    (revoke_on_piece_move p r1 c1 m).black = m.black ∧
    (revoke_on_piece_move p r1 c1 m).finished = m.finished ∧
    (revoke_on_piece_move p r1 c1 m).is_paused = m.is_paused ∧
    (revoke_on_piece_move p r1 c1 m).last_move_time = m.last_move_time ∧
    (revoke_on_piece_move p r1 c1 m).turn = m.turn := by
  unfold revoke_on_piece_move
  try dsimp only
  split_ifs <;> exact ⟨rfl, rfl, rfl, rfl, rfl, rfl⟩

/-- The en-passant target update touches only the en-passant fields. -/
theorem set_ep_target_proj (p : Piece) (r1 c1 r2 c2 : Int) (m : MatchS) :
    (set_ep_target p r1 c1 r2 c2 m).white = m.white ∧
    (set_ep_target p r1 c1 r2 c2 m).black = m.black ∧
    (set_ep_target p r1 c1 r2 c2 m).finished = m.finished ∧
    (set_ep_target p r1 c1 r2 c2 m).is_paused = m.is_paused ∧
    (set_ep_target p r1 c1 r2 c2 m).last_move_time = m.last_move_time ∧
    (set_ep_target p r1 c1 r2 c2 m).turn = m.turn := by
  unfold set_ep_target
  try dsimp only
  split_ifs <;> exact ⟨rfl, rfl, rfl, rfl, rfl, rfl⟩

/-- Applying a move never touches the seats, the terminal flag or the pause
flag (only the handler does). -/
theorem apply_move_frame (m : MatchS) (r1 c1 r2 c2 : Int) (promo : Char) :
    (apply_move m r1 c1 r2 c2 promo).white = m.white ∧
    (apply_move m r1 c1 r2 c2 promo).black = m.black ∧
    (apply_move m r1 c1 r2 c2 promo).finished = m.finished ∧
    (apply_move m r1 c1 r2 c2 promo).is_paused = m.is_paused := by
  unfold apply_move
  try dsimp only
  split_ifs <;>
    simp [revoke_on_rook_capture_proj, revoke_on_piece_move_proj, set_ep_target_proj]

/-- Closing the seat sockets changes no other match field. -/
theorem close_sockets_proj (m : MatchS) :
    (close_sockets m).turn = m.turn ∧
    (close_sockets m).state = m.state ∧
    (close_sockets m).finished = m.finished ∧
    (close_sockets m).is_paused = m.is_paused ∧
    (close_sockets m).last_move_time = m.last_move_time := by
  unfold close_sockets
  cases hw : m.white with
  | none =>
    try dsimp only
    cases hb : m.black with
    | none => exact ⟨rfl, rfl, rfl, rfl, rfl⟩
    | some b => try dsimp only; split_ifs <;> exact ⟨rfl, rfl, rfl, rfl, rfl⟩
  | some w =>
    try dsimp only
    split_ifs with h1
    · try dsimp only
      cases hb : m.black with
      | none => exact ⟨rfl, rfl, rfl, rfl, rfl⟩
      | some b => try dsimp only; split_ifs <;> exact ⟨rfl, rfl, rfl, rfl, rfl⟩
    · try dsimp only
      cases hb : m.black with
      | none => exact ⟨rfl, rfl, rfl, rfl, rfl⟩
      | some b => try dsimp only; split_ifs <;> exact ⟨rfl, rfl, rfl, rfl, rfl⟩

/-- Everything a guarded watchdog send can emit is its own payload. -/
theorem mem_send_if_live {x msg : String} {c : Option ClientS} :
    x ∈ send_if_live c msg → x = msg := by
  unfold send_if_live
  cases c with
  | none => intro h; cases h
  | some cl =>
    intro h
    by_cases hs : cl.sock > 0
    · simp [hs] at h; exact h
    · simp [hs] at h

/-! ## Claim C3: reference-count soundness of the match lifecycle -/

/-- C3 (code_bug evidence).  In the embedded lifecycle model, the
interleaving `c3_trace_prefix` is reachable from `match_create` and leaves
the match registered with `refs = 1` and `match_free` never invoked; the
failing `match_join_by_id` step then drops `refs` to 0, still without
invoking `match_free`, so the match is never destroyed — contradicting the
claim that destruction happens exactly at the operation in which `refs`
transitions to 0. -/
theorem c3_refs_zero_without_free :
    c3_trace_prefix.refs = 1 ∧ c3_trace_prefix.freeCount = 0 ∧
    c3_trace_prefix.registered = true ∧
    (join_locked c3_trace_prefix).2 = -1 ∧
    (join_locked c3_trace_prefix).1.refs = 0 ∧
    (join_locked c3_trace_prefix).1.freeCount = 0 ∧
    (join_locked c3_trace_prefix).1.registered = true := by
  decide

/-! ## Claim C8: protocol-violation counter and kick -/

/-- C8 (code_bug evidence).  Feeding `MAX_ERRORS` unknown commands to the
in-game dispatch answers each with `ERR Unknown command` but never increments
the session's `error_count`, never sends `OPP_KICK` to the opponent, and does
not mark the match finished — the declared counter/kick machinery
(`client.h`, `config.h`) is absent from `client_worker`. -/
theorem c8_no_error_counter_no_kick :
    (run_commands ex_match exW true (List.replicate MAX_ERRORS "BOGUS") 500).2.1.error_count
      = exW.error_count ∧
    (run_commands ex_match exW true (List.replicate MAX_ERRORS "BOGUS") 500).2.2.1
      = ["ERR Unknown command", "ERR Unknown command", "ERR Unknown command"] ∧
    (run_commands ex_match exW true (List.replicate MAX_ERRORS "BOGUS") 500).2.2.2 = [] ∧
    (run_commands ex_match exW true (List.replicate MAX_ERRORS "BOGUS") 500).1.finished
      = false := by
  decide

/-! ## Claim C9: PING heartbeat handling -/

/-- C9 (code_bug evidence).  A `PING` line reaching the in-game dispatch of
`client_worker` falls through the whole `strncmp` chain and is answered with
`ERR Unknown command` — not with the declared `PNG` heartbeat response — so
under the intended error budget it would count as a protocol violation. -/
theorem c9_ping_gets_error_not_png :
    (process_command ex_match exW true "PING" 500).toMe = ["ERR Unknown command"] ∧
    ¬ ("PNG" ∈ (process_command ex_match exW true "PING" 500).toMe) ∧
    (process_command ex_match exW true "PING" 500).toOpp = [] := by
  decide

/-! ## Claim C5: remaining time -/

/-- C5 counterexample.  For a finished match the source returns 0 while the
claimed formula `max(0, timeout − elapsed)` yields the full timeout, so the
claim as stated (quantified over every match) is false. -/
theorem c5_remaining_time_cex :
    ¬ (match_get_remaining_time ex_finished_match 1000 =
       spec_remaining_time ex_finished_match 1000) := by
  decide

/-- C5 (amended).  For a non-finished match with a non-negative timeout,
`match_get_remaining_time` equals `max(0, timeout − elapsed)` with `elapsed`
as claimed; and the remaining time is continuous across `match_try_resume`
whenever the restored clock start `now − elapsed_at_pause` is positive. -/
theorem c5_remaining_time_amended (m : MatchS) (now : Int) :
    (m.finished = false → 0 ≤ m.turn_timeout_seconds →
      match_get_remaining_time m now = spec_remaining_time m now) ∧
    ((match_try_resume m now).2 = true → m.elapsed_at_pause < now →
      match_get_remaining_time (match_try_resume m now).1 now =
        match_get_remaining_time m now) := by
  constructor
  · intro hf ht
    unfold match_get_remaining_time spec_remaining_time
    simp only [hf]
    split_ifs <;> simp_all <;> omega
  · intro hres helapsed
    unfold match_try_resume at hres ⊢
    split_ifs at hres ⊢ with hcond
    obtain ⟨hp, _, _⟩ := hcond
    unfold match_get_remaining_time
    simp only [hp]
    split_ifs <;> simp_all <;> omega

/-- C5 witness: the amended statement applied to a concrete paused match that
resumes at `now = 1000`, with both hypotheses discharged by evaluation. -/
theorem c5_remaining_time_amended_witness :
    (match_get_remaining_time (match_try_resume ex_paused_both 1000).1 1000 =
      match_get_remaining_time ex_paused_both 1000) ∧
    match_get_remaining_time ex_match 150 = spec_remaining_time ex_match 150 := by
  refine ⟨(c5_remaining_time_amended ex_paused_both 1000).2 (by decide) (by decide), ?_⟩
  exact (c5_remaining_time_amended ex_match 150).1 (by decide) (by decide)

/-! ## Claim C6: joining a match -/

/-- C6.  On the match found in the registry, `match_join_by_id` fails exactly
when the match is finished or a black participant is already seated; on
failure the seats, the clock and `refs` are as before the call; on success
the joiner is seated as black, the clock starts at `now`, and `refs` grows by
one. -/
theorem c6_join_spec (m : MatchS) (j : ClientS) (now : Int) :
    ((match_join_by_id_found m j now).2 = -1 ↔
      (¬ (m.black = none) ∨ m.finished = true)) ∧
    ((match_join_by_id_found m j now).2 = -1 →
      (match_join_by_id_found m j now).1.white = m.white ∧
      (match_join_by_id_found m j now).1.black = m.black ∧
      (match_join_by_id_found m j now).1.last_move_time = m.last_move_time ∧
      (match_join_by_id_found m j now).1.elapsed_at_pause = m.elapsed_at_pause ∧
      (match_join_by_id_found m j now).1.is_paused = m.is_paused ∧
      (match_join_by_id_found m j now).1.refs = m.refs) ∧
    (¬ ((match_join_by_id_found m j now).2 = -1) →
      (match_join_by_id_found m j now).1.black = some j ∧
      (match_join_by_id_found m j now).1.last_move_time = now ∧
      (match_join_by_id_found m j now).1.refs = m.refs + 1) := by
  unfold match_join_by_id_found
  try dsimp only
  split_ifs with h
  · refine ⟨by simp [h], fun _ => ?_, fun hne => absurd rfl hne⟩
    refine ⟨rfl, rfl, rfl, rfl, rfl, by dsimp only; omega⟩
  · refine ⟨?_, fun hh => absurd hh (by decide), fun _ => ⟨rfl, rfl, rfl⟩⟩
    constructor
    · intro hh; exact absurd hh (by decide)
    · intro hh; exact absurd hh h

/-- C6 witness: the theorem applied to a concrete open match (successful
join) and to a concrete full match (failed join), with the condition sides
evaluated. -/
theorem c6_join_spec_witness :
    ((match_join_by_id_found ex_open_match exB 700).2 = -1 ↔
      (¬ (ex_open_match.black = none) ∨ ex_open_match.finished = true)) ∧
    (match_join_by_id_found ex_match exB 700).1.refs = ex_match.refs := by
  refine ⟨(c6_join_spec ex_open_match exB 700).1, ?_⟩
  exact ((c6_join_spec ex_match exB 700).2.1 (by decide)).2.2.2.2.2

/-! ## Claim C7: move_leaves_in_check is side-effect free -/

/-- C7.  For in-bounds squares, `move_leaves_in_check` returns the match
exactly as it received it — board, castling rights and en-passant fields
included — its only effect being the returned check verdict (the C function
plays the simulated move, en-passant removal and castling rook relocation
included, on a local copy of the board). -/
theorem c7_mlic_frame (m : MatchS) (color r1 c1 r2 c2 : Int)
    (h1 : in_bounds r1 c1 = true) (h2 : in_bounds r2 c2 = true) :
    (move_leaves_in_check m color r1 c1 r2 c2).2 = m ∧
    (move_leaves_in_check m color r1 c1 r2 c2).2.state = m.state ∧
    (move_leaves_in_check m color r1 c1 r2 c2).2.w_can_kingside = m.w_can_kingside ∧
    (move_leaves_in_check m color r1 c1 r2 c2).2.w_can_queenside = m.w_can_queenside ∧
    (move_leaves_in_check m color r1 c1 r2 c2).2.b_can_kingside = m.b_can_kingside ∧
    (move_leaves_in_check m color r1 c1 r2 c2).2.b_can_queenside = m.b_can_queenside ∧
    (move_leaves_in_check m color r1 c1 r2 c2).2.ep_r = m.ep_r ∧
    (move_leaves_in_check m color r1 c1 r2 c2).2.ep_c = m.ep_c := by
  unfold move_leaves_in_check
  try dsimp only
  split_ifs <;> exact ⟨rfl, rfl, rfl, rfl, rfl, rfl, rfl, rfl⟩

/-- C7 witness: the frame theorem applied to the concrete running match and
the move e2e4, with the bounds hypotheses evaluated. -/
theorem c7_mlic_frame_witness :
    in_bounds 6 4 = true ∧ in_bounds 4 4 = true ∧
    (move_leaves_in_check ex_match 0 6 4 4 4).2 = ex_match := by
  refine ⟨by decide, by decide, ?_⟩
  exact (c7_mlic_frame ex_match 0 6 4 4 4 (by decide) (by decide)).1

/-- Everything the white-seat grace block can send is `WAIT_CONN`. -/
theorem grace_white_msgs {x : String} {m : MatchS} {now : Int} :
    x ∈ (watchdog_grace_white m now).2 → x = "WAIT_CONN" := by
  unfold watchdog_grace_white
  split_ifs
  · exact fun h => mem_send_if_live h
  · intro h; cases h

/-- Everything the black-seat grace block can send is `WAIT_CONN`. -/
theorem grace_black_msgs {x : String} {m : MatchS} {now : Int} :
    x ∈ (watchdog_grace_black m now).2 → x = "WAIT_CONN" := by
  unfold watchdog_grace_black
  split_ifs
  · exact fun h => mem_send_if_live h
  · intro h; cases h

/-- The non-timeout part of a watchdog tick never reports a timeout and only
ever sends `WAIT_CONN` or `OPP_EXT`. -/
theorem watchdog_tick_live_spec (m : MatchS) (now : Int) :
    (watchdog_tick_live m now).timedOut = false ∧
    ∀ x ∈ (watchdog_tick_live m now).msgs, x = "WAIT_CONN" ∨ x = "OPP_EXT" := by
  unfold watchdog_tick_live
  try dsimp only
  split_ifs <;> refine ⟨rfl, fun x hx => ?_⟩
  all_goals rcases List.mem_append.mp hx with h | h
  all_goals
    first
      | exact Or.inr (mem_send_if_live h)
      | exact Or.inl (grace_white_msgs h)
      | exact Or.inl (grace_black_msgs h)
      | (rcases List.mem_append.mp h with h2 | h2 <;>
          first
            | exact Or.inl (grace_white_msgs h2)
            | exact Or.inl (grace_black_msgs h2))

/-! ## Claim C10: the turn-timeout rule fires only with a running clock -/

/-- C10.  A watchdog tick on a paused match, or on a match whose turn clock
never started (`last_move_time = 0`), never sets the local `timed_out` flag
and never emits `TOUT` or `OPP_TOUT`. -/
theorem c10_timeout_guard (m : MatchS) (now : Int)
    (h : m.is_paused = true ∨ m.last_move_time = 0) :
    (match_watchdog_tick m now).timedOut = false ∧
    ¬ ("TOUT" ∈ (match_watchdog_tick m now).msgs) ∧
    ¬ ("OPP_TOUT" ∈ (match_watchdog_tick m now).msgs) := by
  have hto : watchdog_timed_out m now = false := by
    unfold watchdog_timed_out
    rcases h with h | h <;> simp [h]
  have hlive := watchdog_tick_live_spec m now
  refine ⟨?_, ?_, ?_⟩ <;>
    (unfold match_watchdog_tick
     split_ifs with hfin htime <;>
       first
         | rfl
         | exact hlive.1
         | (rw [hto] at htime; cases htime)
         | (intro hmem; cases hmem)
         | (intro hmem; rcases hlive.2 _ hmem with hx | hx <;>
             exact absurd hx (by decide)))

/-- C10 witness: the guard theorem applied to the concrete paused match, with
the hypothesis discharged by evaluation. -/
theorem c10_timeout_guard_witness :
    (ex_paused_match.is_paused = true ∨ ex_paused_match.last_move_time = 0) ∧
    (match_watchdog_tick ex_paused_match 1000).timedOut = false := by
  refine ⟨by decide, ?_⟩
  exact (c10_timeout_guard ex_paused_match 1000 (by decide)).1

/-! ## Claim C4: the pause invariant -/

/-- The grace-to-pause clock freeze establishes the pause invariant whenever
the clock value is a timestamp (non-negative). -/
theorem grace_pause_inv (m : MatchS) (now : Int) (hlm : 0 ≤ m.last_move_time) :
    (grace_pause m now).is_paused = true ∧ (grace_pause m now).last_move_time = 0 := by
  unfold grace_pause
  try dsimp only
  split_ifs with h
  · exact ⟨rfl, rfl⟩
  · refine ⟨rfl, ?_⟩
    try dsimp only
    omega

/-- The grace-to-pause clock freeze touches neither the terminal flag nor the
seats. -/
theorem grace_pause_proj (m : MatchS) (now : Int) :
    (grace_pause m now).finished = m.finished ∧
    (grace_pause m now).white = m.white ∧
    (grace_pause m now).black = m.black := by
  unfold grace_pause
  try dsimp only
  split_ifs <;> exact ⟨rfl, rfl, rfl⟩

/-- The white-seat zombie check touches only that seat's `disconnect_time`. -/
theorem zombie_white_proj (m : MatchS) (now : Int) :
    (zombie_white m now).is_paused = m.is_paused ∧
    (zombie_white m now).last_move_time = m.last_move_time ∧
    (zombie_white m now).finished = m.finished := by
  unfold zombie_white
  cases hw : m.white with
  | none => exact ⟨rfl, rfl, rfl⟩
  | some w =>
    try dsimp only
    split_ifs <;> exact ⟨rfl, rfl, rfl⟩

/-- The black-seat zombie check touches only that seat's `disconnect_time`. -/
theorem zombie_black_proj (m : MatchS) (now : Int) :
    (zombie_black m now).is_paused = m.is_paused ∧
    (zombie_black m now).last_move_time = m.last_move_time ∧
    (zombie_black m now).finished = m.finished := by
  unfold zombie_black
  cases hb : m.black with
  | none => exact ⟨rfl, rfl, rfl⟩
  | some b =>
    try dsimp only
    split_ifs <;> exact ⟨rfl, rfl, rfl⟩

/-- The white-seat grace block preserves the pause invariant and keeps the
clock value non-negative. -/
theorem watchdog_grace_white_inv (m : MatchS) (now : Int)
    (hInv : pause_inv m) (hlm : 0 ≤ m.last_move_time) :
    pause_inv (watchdog_grace_white m now).1 ∧
    0 ≤ (watchdog_grace_white m now).1.last_move_time := by
  unfold watchdog_grace_white
  split_ifs with h
  · try dsimp only
    have h0 := (grace_pause_inv m now hlm).2
    refine ⟨fun _ => h0, ?_⟩
    omega
  · exact ⟨hInv, hlm⟩

/-- The black-seat grace block preserves the pause invariant and keeps the
clock value non-negative. -/
theorem watchdog_grace_black_inv (m : MatchS) (now : Int)
    (hInv : pause_inv m) (hlm : 0 ≤ m.last_move_time) :
    pause_inv (watchdog_grace_black m now).1 ∧
    0 ≤ (watchdog_grace_black m now).1.last_move_time := by
  unfold watchdog_grace_black
  split_ifs with h
  · try dsimp only
    have h0 := (grace_pause_inv m now hlm).2
    refine ⟨fun _ => h0, ?_⟩
    omega
  · exact ⟨hInv, hlm⟩

/-- The non-timeout part of a watchdog tick preserves the pause invariant for
non-negative clock values. -/
theorem watchdog_tick_live_inv (m : MatchS) (now : Int)
    (hInv : pause_inv m) (hlm : 0 ≤ m.last_move_time) :
    pause_inv (watchdog_tick_live m now).m := by
  have hw := watchdog_grace_white_inv m now hInv hlm
  have hb := watchdog_grace_black_inv (watchdog_grace_white m now).1 now hw.1 hw.2
  unfold watchdog_tick_live
  try dsimp only
  split_ifs with hdc <;>
    (intro hp
     try dsimp only at hp ⊢
     rw [(zombie_black_proj _ now).1, (zombie_white_proj _ now).1] at hp
     rw [(zombie_black_proj _ now).2.1, (zombie_white_proj _ now).2.1]
     exact hb.1 hp)

/-- The `MV` handler never changes the pause flag. -/
theorem client_mv_handler_is_paused (m : MatchS) (meWhite : Bool) (myColor : Int)
    (mv : String) (r1 c1 r2 c2 : Int) (promo : Char) (mySock now : Int) :
    (client_mv_handler m meWhite myColor mv r1 c1 r2 c2 promo mySock now).1.is_paused
      = m.is_paused := by
  unfold client_mv_handler
  try dsimp only
  split_ifs <;> simp [close_sockets_proj, apply_move_frame]

/-- C4 counterexample.  `ex_paused_match` satisfies the pause invariant, yet
a successful `MV` on it (white plays e2e4 while black is disconnected and the
clock is paused) resets `last_move_time` to the current time while leaving
`is_paused` set — so the claim that the MV handler's turn-clock reset
preserves the invariant is false. -/
theorem c4_pause_invariant_cex :
    pause_inv ex_paused_match ∧
    (client_mv_handler ex_paused_match true 0 "e2e4" 6 4 4 4 (Char.ofNat 0) 5 1000).1.is_paused
      = true ∧
    ¬ ((client_mv_handler ex_paused_match true 0 "e2e4" 6 4 4 4 (Char.ofNat 0) 5 1000).1.last_move_time
        = 0) := by
  refine ⟨fun _ => rfl, ?_, ?_⟩ <;> decide

/-- C4 (amended).  The pause invariant (`is_paused → last_move_time = 0`) is
preserved by `match_try_resume`, by a full watchdog tick (in particular by
its grace-to-pause transition) whenever the clock value is a non-negative
timestamp, and by the MV handler's turn-clock reset provided the match is not
paused when the move is played (a successful MV on a paused match breaks the
invariant). -/
theorem c4_pause_invariant_amended (m : MatchS) (now : Int) (meWhite : Bool)
    (myColor : Int) (mv : String) (r1 c1 r2 c2 : Int) (promo : Char) (mySock : Int)
    (hInv : pause_inv m) :
    pause_inv (match_try_resume m now).1 ∧
    (0 ≤ m.last_move_time → pause_inv (match_watchdog_tick m now).m) ∧
    (m.is_paused = false →
      pause_inv (client_mv_handler m meWhite myColor mv r1 c1 r2 c2 promo mySock now).1) := by
  refine ⟨?_, ?_, ?_⟩
  · unfold match_try_resume
    split_ifs with h
    · intro hp; cases hp
    · exact hInv
  · intro hlm
    unfold match_watchdog_tick
    try dsimp only
    split_ifs with h1 h2 <;>
      first
        | exact watchdog_tick_live_inv m now hInv hlm
        | exact fun hp => hInv hp
  · intro hnp hp
    rw [client_mv_handler_is_paused] at hp
    rw [hnp] at hp
    cases hp

/-- C4 witness: the amended preservation applied to the concrete running
match (not paused, non-negative clock), with all hypotheses evaluated. -/
theorem c4_pause_invariant_amended_witness :
    pause_inv (match_try_resume ex_match 1000).1 ∧
    pause_inv (match_watchdog_tick ex_match 1000).m ∧
    pause_inv (client_mv_handler ex_match true 0 "e2e4" 6 4 4 4 (Char.ofNat 0) 5 1000).1 := by
  have h := c4_pause_invariant_amended ex_match 1000 true 0 "e2e4" 6 4 4 4 (Char.ofNat 0) 5
    (fun hp => by cases hp)
  exact ⟨h.1, h.2.1 (by decide), h.2.2 (by decide)⟩

/-! ## Claim C2: outcome messages of an accepted MV -/

/-- The move-history field plays no role in basic legality. -/
theorem is_legal_move_basic_moves (m : MatchS) (l : List String) (color r1 c1 r2 c2 : Int) :
    is_legal_move_basic { m with moves := l } color r1 c1 r2 c2 =
      is_legal_move_basic m color r1 c1 r2 c2 := by
  unfold is_legal_move_basic
  try dsimp only
  try rfl

/-- The move-history field plays no role in the simulated check verdict. -/
theorem mlic_fst_moves (m : MatchS) (l : List String) (color r1 c1 r2 c2 : Int) :
    (move_leaves_in_check { m with moves := l } color r1 c1 r2 c2).1 =
      (move_leaves_in_check m color r1 c1 r2 c2).1 := by
  unfold move_leaves_in_check
  try dsimp only
  split_ifs <;> rfl

/-- The move-history field plays no role in the legal-move scan. -/
theorem has_any_legal_move_moves (m : MatchS) (l : List String) (c : Int) :
    has_any_legal_move { m with moves := l } c = has_any_legal_move m c := by
  unfold has_any_legal_move
  try dsimp only
  simp only [is_legal_move_basic_moves, mlic_fst_moves]

/-- The move-history field plays no role in the opponent's socket. -/
theorem opp_sock_moves (m : MatchS) (l : List String) (w : Bool) :
    opp_sock { m with moves := l } w = opp_sock m w := rfl

/-- Applying a move does not change the opponent's socket. -/
theorem opp_sock_apply_move (m : MatchS) (r1 c1 r2 c2 : Int) (promo : Char) (w : Bool) :
    opp_sock (apply_move m r1 c1 r2 c2 promo) w = opp_sock m w := by
  have hfr := apply_move_frame m r1 c1 r2 c2 promo
  unfold opp_sock opp_of
  cases w <;> simp [hfr.1, hfr.2.1]

/-- C2.  An accepted MV (match not finished, mover's turn, basically legal,
not leaving the mover's king in check, both sides connected) produces exactly
one of the four outcomes, determined by whether the opponent is in check and
whether the opponent has a legal move after the move is applied: `OK_MV`
alone, `OK_MV` plus `CHK` to the opponent, the `WIN_CHKM`/`CHKM` pair, or
`SM` to both — and in the checkmate and stalemate cases the match is marked
finished.  (`OPP_MV` is the unconditional move broadcast to the opponent.) -/
theorem c2_mv_outcomes (m : MatchS) (meWhite : Bool) (myColor : Int) (mv : String)
    (r1 c1 r2 c2 : Int) (promo : Char) (mySock now : Int)
    (hf : m.finished = false) (ht : m.turn = myColor)
    (hl : is_legal_move_basic m myColor r1 c1 r2 c2 = true)
    (hnc : (move_leaves_in_check m myColor r1 c1 r2 c2).1 = false)
    (hms : mySock > 0) (hos : opp_sock m meWhite > 0) :
    (is_in_check (apply_move m r1 c1 r2 c2 promo).state (1 - myColor) = false ∧
     has_any_legal_move (apply_move m r1 c1 r2 c2 promo) (1 - myColor) = true ∧
     (client_mv_handler m meWhite myColor mv r1 c1 r2 c2 promo mySock now).2.1 = ["OK_MV"] ∧
     (client_mv_handler m meWhite myColor mv r1 c1 r2 c2 promo mySock now).2.2 = ["OPP_MV " ++ mv] ∧
     (client_mv_handler m meWhite myColor mv r1 c1 r2 c2 promo mySock now).1.finished = false) ∨
    (is_in_check (apply_move m r1 c1 r2 c2 promo).state (1 - myColor) = true ∧
     has_any_legal_move (apply_move m r1 c1 r2 c2 promo) (1 - myColor) = true ∧
     (client_mv_handler m meWhite myColor mv r1 c1 r2 c2 promo mySock now).2.1 = ["OK_MV"] ∧
     (client_mv_handler m meWhite myColor mv r1 c1 r2 c2 promo mySock now).2.2
       = ["OPP_MV " ++ mv, "CHK"] ∧
     (client_mv_handler m meWhite myColor mv r1 c1 r2 c2 promo mySock now).1.finished = false) ∨
    (is_in_check (apply_move m r1 c1 r2 c2 promo).state (1 - myColor) = true ∧
     has_any_legal_move (apply_move m r1 c1 r2 c2 promo) (1 - myColor) = false ∧
     (client_mv_handler m meWhite myColor mv r1 c1 r2 c2 promo mySock now).2.1
       = ["OK_MV", "WIN_CHKM"] ∧
     (client_mv_handler m meWhite myColor mv r1 c1 r2 c2 promo mySock now).2.2
       = ["OPP_MV " ++ mv, "CHKM"] ∧
     (client_mv_handler m meWhite myColor mv r1 c1 r2 c2 promo mySock now).1.finished = true) ∨
    (is_in_check (apply_move m r1 c1 r2 c2 promo).state (1 - myColor) = false ∧
     has_any_legal_move (apply_move m r1 c1 r2 c2 promo) (1 - myColor) = false ∧
     (client_mv_handler m meWhite myColor mv r1 c1 r2 c2 promo mySock now).2.1
       = ["OK_MV", "SM"] ∧
     (client_mv_handler m meWhite myColor mv r1 c1 r2 c2 promo mySock now).2.2
       = ["OPP_MV " ++ mv, "SM"] ∧
     (client_mv_handler m meWhite myColor mv r1 c1 r2 c2 promo mySock now).1.finished = true) := by
  have hfr := apply_move_frame m r1 c1 r2 c2 promo
  unfold client_mv_handler
  rw [if_neg (show ¬ (m.finished = true) by simp [hf])]
  rw [if_neg (show ¬ ¬ (m.turn = myColor) by simp [ht])]
  rw [if_neg (show ¬ (is_legal_move_basic m myColor r1 c1 r2 c2 = false) by simp [hl])]
  rw [if_neg (show ¬ ((move_leaves_in_check m myColor r1 c1 r2 c2).1 = true) by simp [hnc])]
  try dsimp only
  simp only [has_any_legal_move_moves, opp_sock_moves, opp_sock_apply_move]
  cases hchk : is_in_check (apply_move m r1 c1 r2 c2 promo).state (1 - myColor) <;>
    cases hhm : has_any_legal_move (apply_move m r1 c1 r2 c2 promo) (1 - myColor)
  · -- stalemate
    refine Or.inr (Or.inr (Or.inr ⟨rfl, rfl, ?_, ?_, ?_⟩)) <;>
      simp [send_me, hms, hos, close_sockets_proj]
  · -- quiet continuation
    refine Or.inl ⟨rfl, rfl, ?_, ?_, ?_⟩ <;>
      simp [send_me, hms, hos, hfr.2.2.1, hf]
  · -- checkmate
    refine Or.inr (Or.inr (Or.inl ⟨rfl, rfl, ?_, ?_, ?_⟩)) <;>
      simp [send_me, hms, hos, close_sockets_proj]
  · -- check with a reply
    refine Or.inr (Or.inl ⟨rfl, rfl, ?_, ?_, ?_⟩) <;>
      simp [send_me, hms, hos, hfr.2.2.1, hf]

/-- C2 witness: the outcome theorem applied to White's opening move e2e4 in
the concrete running match, with every acceptance hypothesis discharged by
evaluation. -/
theorem c2_mv_outcomes_witness :
    ex_match.finished = false ∧ ex_match.turn = 0 ∧
    is_legal_move_basic ex_match 0 6 4 4 4 = true ∧
    (move_leaves_in_check ex_match 0 6 4 4 4).1 = false ∧
    (5:Int) > 0 ∧ opp_sock ex_match true > 0 ∧
    ((is_in_check (apply_move ex_match 6 4 4 4 (Char.ofNat 0)).state (1 - 0) = false ∧
      has_any_legal_move (apply_move ex_match 6 4 4 4 (Char.ofNat 0)) (1 - 0) = true ∧
      (client_mv_handler ex_match true 0 "e2e4" 6 4 4 4 (Char.ofNat 0) 5 500).2.1 = ["OK_MV"] ∧
      (client_mv_handler ex_match true 0 "e2e4" 6 4 4 4 (Char.ofNat 0) 5 500).2.2
        = ["OPP_MV " ++ "e2e4"] ∧
      (client_mv_handler ex_match true 0 "e2e4" 6 4 4 4 (Char.ofNat 0) 5 500).1.finished = false) ∨
     (is_in_check (apply_move ex_match 6 4 4 4 (Char.ofNat 0)).state (1 - 0) = true ∧
      has_any_legal_move (apply_move ex_match 6 4 4 4 (Char.ofNat 0)) (1 - 0) = true ∧
      (client_mv_handler ex_match true 0 "e2e4" 6 4 4 4 (Char.ofNat 0) 5 500).2.1 = ["OK_MV"] ∧
      (client_mv_handler ex_match true 0 "e2e4" 6 4 4 4 (Char.ofNat 0) 5 500).2.2
        = ["OPP_MV " ++ "e2e4", "CHK"] ∧
      (client_mv_handler ex_match true 0 "e2e4" 6 4 4 4 (Char.ofNat 0) 5 500).1.finished = false) ∨
     (is_in_check (apply_move ex_match 6 4 4 4 (Char.ofNat 0)).state (1 - 0) = true ∧
      has_any_legal_move (apply_move ex_match 6 4 4 4 (Char.ofNat 0)) (1 - 0) = false ∧
      (client_mv_handler ex_match true 0 "e2e4" 6 4 4 4 (Char.ofNat 0) 5 500).2.1
        = ["OK_MV", "WIN_CHKM"] ∧
      (client_mv_handler ex_match true 0 "e2e4" 6 4 4 4 (Char.ofNat 0) 5 500).2.2
        = ["OPP_MV " ++ "e2e4", "CHKM"] ∧
      (client_mv_handler ex_match true 0 "e2e4" 6 4 4 4 (Char.ofNat 0) 5 500).1.finished = true) ∨
     (is_in_check (apply_move ex_match 6 4 4 4 (Char.ofNat 0)).state (1 - 0) = false ∧
      has_any_legal_move (apply_move ex_match 6 4 4 4 (Char.ofNat 0)) (1 - 0) = false ∧
      (client_mv_handler ex_match true 0 "e2e4" 6 4 4 4 (Char.ofNat 0) 5 500).2.1
        = ["OK_MV", "SM"] ∧
      (client_mv_handler ex_match true 0 "e2e4" 6 4 4 4 (Char.ofNat 0) 5 500).2.2
        = ["OPP_MV " ++ "e2e4", "SM"] ∧
      (client_mv_handler ex_match true 0 "e2e4" 6 4 4 4 (Char.ofNat 0) 5 500).1.finished = true)) := by
  refine ⟨by decide, by decide, by decide, by decide, by decide, by decide, ?_⟩
  exact c2_mv_outcomes ex_match true 0 "e2e4" 6 4 4 4 (Char.ofNat 0) 5 500
    (by decide) (by decide) (by decide) (by decide) (by decide) (by decide)

/-! ## Claim C1: soundness of the castling acceptance -/

set_option maxHeartbeats 1000000 in
/-- C1.  An attempted castling move — the mover's king moving two files along
its own back rank — is accepted by `is_legal_move_basic` only if the king
stands on its original square (file e), the move targets file g (kingside) or
file c (queenside), and the corresponding spec preconditions all hold: rook
on its original square, every square strictly between king and rook empty,
the castling right still set, and the king neither currently attacked nor
passing through or landing on an attacked square. -/
theorem c1_castling_sound (m : MatchS) (color r1 c1 r2 c2 : Int)
    (hcol : color = 0 ∨ color = 1)
    (hk : m.state r1 c1 = kingOf color)
    (hr : r1 = backRank color) (hrr : r2 = r1)
    (hdc : c2 = c1 + 2 ∨ c2 = c1 - 2)
    (hleg : is_legal_move_basic m color r1 c1 r2 c2 = true) :
    c1 = 4 ∧ ((c2 = 6 ∧ castle_kingside_ok m color) ∨
              (c2 = 2 ∧ castle_queenside_ok m color)) := by
  rcases hcol with rfl | rfl <;> rcases hdc with rfl | rfl <;>
    (simp only [kingOf] at hk
     norm_num at hk
     simp only [backRank] at hr
     norm_num at hr
     subst hrr
     subst hr)
  · -- white, c2 = c1 + 2
    unfold is_legal_move_basic at hleg
    by_cases hbnds : ¬ (in_bounds 7 c1 = true) ∨ ¬ (in_bounds 7 (c1 + 2) = true)
    · rw [if_pos hbnds] at hleg; exact absurd hleg (by decide)
    · rw [if_neg hbnds] at hleg
      have hb : (0 ≤ c1 ∧ c1 < 8) ∧ (0 ≤ c1 + 2 ∧ c1 + 2 < 8) := by
        simp only [in_bounds, not_or, not_not] at hbnds
        obtain ⟨ha, hbb⟩ := hbnds
        constructor
        · have := of_decide_eq_true ha; omega
        · have := of_decide_eq_true hbb; omega
      simp only [hk] at hleg
      have h2 : c1 + 2 - c1 = (2:Int) := by ring
      simp only [h2] at hleg
      norm_num [piece_color] at hleg
      obtain ⟨htgt, hatk4, hatk56, hatk32, hking4, hwing⟩ := hleg
      by_cases h6 : c1 + 2 = 6 ∧ m.w_can_kingside = true
      · rw [if_pos h6] at hwing
        have hc14 : c1 = 4 := by omega
        subst hc14
        have hatk : is_square_attacked m.state 7 5 1 = false ∧
            is_square_attacked m.state 7 6 1 = false := by
          rcases hatk56 with h | h
          · omega
          · exact h
        refine ⟨rfl, Or.inl ⟨by norm_num, ?_, ?_, ?_, ?_, ?_, ?_, ?_, ?_⟩⟩
        · simpa [backRank, kingOf] using hking4
        · simpa [backRank, rookOf] using hwing.1
        · simpa [backRank] using hwing.2.1
        · simpa [backRank] using hwing.2.2
        · simpa [kingsideRight] using h6.2
        · simpa [backRank] using hatk4
        · simpa [backRank] using hatk.1
        · simpa [backRank] using hatk.2
      · rw [if_neg h6] at hwing
        obtain ⟨⟨hc10, hq⟩, hrk, hrest⟩ := hwing
        rw [hc10] at hk
        rw [hrk] at hk
        exact absurd hk (by decide)
  · -- white, c2 = c1 - 2
    unfold is_legal_move_basic at hleg
    by_cases hbnds : ¬ (in_bounds 7 c1 = true) ∨ ¬ (in_bounds 7 (c1 - 2) = true)
    · rw [if_pos hbnds] at hleg; exact absurd hleg (by decide)
    · rw [if_neg hbnds] at hleg
      have hb : (0 ≤ c1 ∧ c1 < 8) ∧ (0 ≤ c1 - 2 ∧ c1 - 2 < 8) := by
        simp only [in_bounds, not_or, not_not] at hbnds
        obtain ⟨ha, hbb⟩ := hbnds
        constructor
        · have := of_decide_eq_true ha; omega
        · have := of_decide_eq_true hbb; omega
      simp only [hk] at hleg
      have h2 : c1 - 2 - c1 = (-2:Int) := by ring
      simp only [h2] at hleg
      norm_num [piece_color] at hleg
      obtain ⟨htgt, hatk4, hatk56, hatk32, hking4, hwing⟩ := hleg
      by_cases h6 : c1 - 2 = 6 ∧ m.w_can_kingside = true
      · exact absurd h6.1 (by omega)
      · rw [if_neg h6] at hwing
        obtain ⟨⟨hc12, hq⟩, hr0, hr1, hr2e, hr3⟩ := hwing
        have hc14 : c1 = 4 := by omega
        subst hc14
        have hatk : is_square_attacked m.state 7 3 1 = false ∧
            is_square_attacked m.state 7 2 1 = false := by
          rcases hatk32 with h | h
          · omega
          · exact h
        refine ⟨rfl, Or.inr ⟨by norm_num, ?_, ?_, ?_, ?_, ?_, ?_, ?_, ?_, ?_⟩⟩
        · simpa [backRank, kingOf] using hking4
        · simpa [backRank, rookOf] using hr0
        · simpa [backRank] using hr1
        · simpa [backRank] using hr2e
        · simpa [backRank] using hr3
        · simpa [queensideRight] using hq
        · simpa [backRank] using hatk4
        · simpa [backRank] using hatk.1
        · simpa [backRank] using hatk.2
  · -- black, c2 = c1 + 2
    unfold is_legal_move_basic at hleg
    by_cases hbnds : ¬ (in_bounds 0 c1 = true) ∨ ¬ (in_bounds 0 (c1 + 2) = true)
    · rw [if_pos hbnds] at hleg; exact absurd hleg (by decide)
    · rw [if_neg hbnds] at hleg
      have hb : (0 ≤ c1 ∧ c1 < 8) ∧ (0 ≤ c1 + 2 ∧ c1 + 2 < 8) := by
        simp only [in_bounds, not_or, not_not] at hbnds
        obtain ⟨ha, hbb⟩ := hbnds
        constructor
        · have := of_decide_eq_true ha; omega
        · have := of_decide_eq_true hbb; omega
      simp only [hk] at hleg
      have h2 : c1 + 2 - c1 = (2:Int) := by ring
      simp only [h2] at hleg
      norm_num [piece_color] at hleg
      obtain ⟨htgt, hatk4, hatk56, hatk32, hking4, hwing⟩ := hleg
      by_cases h6 : c1 + 2 = 6 ∧ m.b_can_kingside = true
      · rw [if_pos h6] at hwing
        have hc14 : c1 = 4 := by omega
        subst hc14
        have hatk : is_square_attacked m.state 0 5 0 = false ∧
            is_square_attacked m.state 0 6 0 = false := by
          rcases hatk56 with h | h
          · omega
          · exact h
        refine ⟨rfl, Or.inl ⟨by norm_num, ?_, ?_, ?_, ?_, ?_, ?_, ?_, ?_⟩⟩
        · simpa [backRank, kingOf] using hking4
        · simpa [backRank, rookOf] using hwing.1
        · simpa [backRank] using hwing.2.1
        · simpa [backRank] using hwing.2.2
        · simpa [kingsideRight] using h6.2
        · simpa [backRank] using hatk4
        · simpa [backRank] using hatk.1
        · simpa [backRank] using hatk.2
      · rw [if_neg h6] at hwing
        obtain ⟨⟨hc10, hq⟩, hrk, hrest⟩ := hwing
        rw [hc10] at hk
        rw [hrk] at hk
        exact absurd hk (by decide)
  · -- black, c2 = c1 - 2
    unfold is_legal_move_basic at hleg
    by_cases hbnds : ¬ (in_bounds 0 c1 = true) ∨ ¬ (in_bounds 0 (c1 - 2) = true)
    · rw [if_pos hbnds] at hleg; exact absurd hleg (by decide)
    · rw [if_neg hbnds] at hleg
      have hb : (0 ≤ c1 ∧ c1 < 8) ∧ (0 ≤ c1 - 2 ∧ c1 - 2 < 8) := by
        simp only [in_bounds, not_or, not_not] at hbnds
        obtain ⟨ha, hbb⟩ := hbnds
        constructor
        · have := of_decide_eq_true ha; omega
        · have := of_decide_eq_true hbb; omega
      simp only [hk] at hleg
      have h2 : c1 - 2 - c1 = (-2:Int) := by ring
      simp only [h2] at hleg
      norm_num [piece_color] at hleg
      obtain ⟨htgt, hatk4, hatk56, hatk32, hking4, hwing⟩ := hleg
      by_cases h6 : c1 - 2 = 6 ∧ m.b_can_kingside = true
      · exact absurd h6.1 (by omega)
      · rw [if_neg h6] at hwing
        obtain ⟨⟨hc12, hq⟩, hr0, hr1, hr2e, hr3⟩ := hwing
        have hc14 : c1 = 4 := by omega
        subst hc14
        have hatk : is_square_attacked m.state 0 3 0 = false ∧
            is_square_attacked m.state 0 2 0 = false := by
          rcases hatk32 with h | h
          · omega
          · exact h
        refine ⟨rfl, Or.inr ⟨by norm_num, ?_, ?_, ?_, ?_, ?_, ?_, ?_, ?_, ?_⟩⟩
        · simpa [backRank, kingOf] using hking4
        · simpa [backRank, rookOf] using hr0
        · simpa [backRank] using hr1
        · simpa [backRank] using hr2e
        · simpa [backRank] using hr3
        · simpa [queensideRight] using hq
        · simpa [backRank] using hatk4
        · simpa [backRank] using hatk.1
        · simpa [backRank] using hatk.2

/-- C1 witness: the soundness theorem applied to White castling kingside in
`ex_castle_match`, where the move is in fact accepted; all hypotheses are
discharged by evaluation. -/
theorem c1_castling_sound_witness :
    is_legal_move_basic ex_castle_match 0 7 4 7 6 = true ∧
    ((4:Int) = 4 ∧ (((6:Int) = 6 ∧ castle_kingside_ok ex_castle_match 0) ∨
              ((6:Int) = 2 ∧ castle_queenside_ok ex_castle_match 0))) := by
  refine ⟨by decide, ?_⟩
  exact c1_castling_sound ex_castle_match 0 7 4 7 6 (Or.inl rfl) (by decide) (by decide) rfl
    (Or.inl (by decide)) (by decide)

end KivUps
